import Mathlib

/-
Verification development for the globe rendering/interaction controller of the
dashboard repository.  The repository contains several iterations of one React
component (EarthComponent); the suffixes V1, V2, V3 below refer to the three
iterations concatenated in src/components/EarthComponent.tsx, in order.  The
iteration in unnamed/part_001 agrees with V2 on every function modelled here
except where noted (its resetZoom behaves like V1/V3).

Numbers are modelled as rationals; JavaScript values that may be NaN, Infinity
or undefined are modelled by the JsVal type.
-/

/-! ## JavaScript values and data-center records -/

inductive JsVal where
  | num (q : ℚ)
  | nanVal
  | infVal
  | undef
  deriving Repr, DecidableEq

/-- Models the check `typeof v === "number" && isFinite(v) && !Number.isNaN(v)`. -/
def isFiniteNumber : JsVal → Bool
  | .num _ => true
  | _ => false

/-- Models the JavaScript comparison `v > 0` (false for NaN and undefined,
true for Infinity). -/
def jsGtZero : JsVal → Bool
  | .num q => decide (0 < q)
  | .infVal => true
  | _ => false

structure DataCenterRecord where
  key : String
  name : String
  owner : String
  region : String
  latitude : JsVal
  longitude : JsVal
  total_nodes : JsVal
  deriving Repr, DecidableEq

/-- The group stored under key `r` in the map built by
`centers.forEach(dc => (regionMap[dc.region] ||= []).push(dc))`:
all records of that region, in input order. -/
def regionGroup (centers : List DataCenterRecord) (r : String) : List DataCenterRecord :=
  centers.filter (fun dc => dc.region == r)

/-- The key set `Object.keys(regionMap)` of the grouped map (one entry per
distinct region). -/
def regionKeys (centers : List DataCenterRecord) : List String :=
  (centers.map (·.region)).dedup

/-- Models `data.data_centers.filter(dc => dc.total_nodes > 0)`, applied to the
fetched list before grouping and before caching. -/
def filterCenters (records : List DataCenterRecord) : List DataCenterRecord :=
  records.filter (fun dc => jsGtZero dc.total_nodes)

/-! ## Breakpoints and viewport state -/

structure Breakpoint where
  isMobile : Bool
  isTablet : Bool
  isMedium : Bool
  deriving Repr, DecidableEq

def bpDesktop : Breakpoint := ⟨false, false, false⟩

structure ZoomState where
  current : ℚ
  min : ℚ
  max : ℚ
  step : ℚ
  deriving Repr, DecidableEq

def zoomInvariant (z : ZoomState) : Prop :=
  z.min ≤ z.current ∧ z.current ≤ z.max

/-- The V1 (and V3) breakpoint effect: `initial = isMedium ? 1 : 1.3`,
`min = isMedium ? 1 : 1.3`,
`max = isMobile ? 1.6 : isTablet ? 1.8 : isMedium ? 1.4 : 1.9`, step `0.2`. -/
def deriveZoomV1 (bp : Breakpoint) : ZoomState :=
  { current := if bp.isMedium then 1 else 13/10
    min := if bp.isMedium then 1 else 13/10
    max :=
      if bp.isMobile then 16/10
      else if bp.isTablet then 18/10
      else if bp.isMedium then 14/10
      else 19/10
    step := 2/10 }

/-- The V2 breakpoint effect:
`max = isMobile ? 1.6 : isTablet ? 1.5 : isMedium ? 1.4 : 1.6`, step `0.1`. -/
def deriveZoomV2 (bp : Breakpoint) : ZoomState :=
  { current := if bp.isMedium then 1 else 13/10
    min := if bp.isMedium then 1 else 13/10
    max :=
      if bp.isMobile then 16/10
      else if bp.isTablet then 15/10
      else if bp.isMedium then 14/10
      else 16/10
    step := 1/10 }

/-! ## V1 imperative zoom surface -/

structure V1State where
  earthInstance : Bool
  zoom : ZoomState
  deriving Repr, DecidableEq

/-- V1 zoomIn: `newZoom = Math.min(current + step, max)` guarded by the
presence of the earth instance. -/
def zoomInV1 (s : V1State) : V1State :=
  if s.earthInstance then
    { s with zoom := { s.zoom with current := min (s.zoom.current + s.zoom.step) s.zoom.max } }
  else s

/-- V1 zoomOut: `newZoom = Math.max(current - step, min)`. -/
def zoomOutV1 (s : V1State) : V1State :=
  if s.earthInstance then
    { s with zoom := { s.zoom with current := max (s.zoom.current - s.zoom.step) s.zoom.min } }
  else s

/-- V1 resetZoom: sets `zoomState.current.current = 1.1` (a hardcoded value,
not the class minimum). -/
def resetZoomV1 (s : V1State) : V1State :=
  if s.earthInstance then
    { s with zoom := { s.zoom with current := 11/10 } }
  else s

def desktopV1State : V1State := ⟨true, deriveZoomV1 bpDesktop⟩

/-! ## V2 imperative zoom surface (with rounding and width coupling) -/

/-- Models `Math.round(q * 10) / 10` (JavaScript Math.round rounds half towards
positive infinity, as does Mathlib round). -/
def jsRound10 (q : ℚ) : ℚ := ((round (q * 10) : ℤ) : ℚ) / 10

structure V2State where
  earthInstance : Bool
  zoom : ZoomState
  widthCurrent : ℚ
  deriving Repr, DecidableEq

/-- V2 zoomIn: rounds `current + step` to one decimal, clamps at `max`,
and returns early when the clamped value equals the current zoom; on big
screens it also widens the container (width clamped at 90). -/
def zoomInV2 (bp : Breakpoint) (s : V2State) : V2State :=
  if s.earthInstance then
    let tempZoom := s.zoom.current + s.zoom.step
    let newZoom := min (jsRound10 tempZoom) s.zoom.max
    if newZoom = s.zoom.current then s
    else
      let s1 := { s with zoom := { s.zoom with current := newZoom } }
      if !bp.isMobile && !bp.isTablet && !bp.isMedium then
        { s1 with widthCurrent := min (s1.widthCurrent + 10) 90 }
      else s1
  else s

/-- V2 zoomOut: rounds `current - step` to one decimal and clamps at `min`. -/
def zoomOutV2 (bp : Breakpoint) (s : V2State) : V2State :=
  if s.earthInstance then
    let tempZoom := s.zoom.current - s.zoom.step
    let newZoom := max (jsRound10 tempZoom) s.zoom.min
    if newZoom = s.zoom.current then s
    else
      let s1 := { s with zoom := { s.zoom with current := newZoom } }
      if !bp.isMobile && !bp.isTablet && !bp.isMedium then
        { s1 with widthCurrent := max (s1.widthCurrent - 10) 65 }
      else s1
  else s

/-- V2 resetZoom: `zoomState.current.current = zoomState.current.min`, and the
width is reset to 65 on big screens.  This is the only iteration whose
resetZoom restores the class minimum. -/
def resetZoomV2 (bp : Breakpoint) (s : V2State) : V2State :=
  if s.earthInstance then
    let s1 := { s with zoom := { s.zoom with current := s.zoom.min } }
    if !bp.isMobile && !bp.isTablet && !bp.isMedium then
      { s1 with widthCurrent := 65 }
    else s1
  else s

/-! ## Popup smart placement (identical in all three iterations) -/

structure Rect where
  left : ℚ
  right : ℚ
  top : ℚ
  bottom : ℚ
  deriving Repr, DecidableEq

structure PopupPos where
  left : ℚ
  top : ℚ
  deriving Repr, DecidableEq

def popupWidth : ℚ := 380
def popupHeight : ℚ := 500
def popupMargin : ℚ := 20

/-- Faithful translation of calculateSmartPopupPosition. -/
def calculateSmartPopupPosition (mouseX mouseY : ℚ) (b : Rect) : PopupPos :=
  let spaceRight := b.right - mouseX
  let spaceLeft := mouseX - b.left
  let spaceBelow := b.bottom - mouseY
  let spaceAbove := mouseY - b.top
  let left0 :=
    if popupWidth + popupMargin ≤ spaceRight then mouseX + popupMargin
    else if popupWidth + popupMargin ≤ spaceLeft then mouseX - popupWidth - popupMargin
    else max (b.left + popupMargin)
      (min (mouseX - popupWidth / 2) (b.right - popupWidth - popupMargin))
  let top0 :=
    if popupHeight + popupMargin ≤ spaceBelow then mouseY + popupMargin
    else if popupHeight + popupMargin ≤ spaceAbove then mouseY - popupHeight - popupMargin
    else if spaceAbove < spaceBelow then
      max (mouseY - popupHeight + spaceBelow - popupMargin) (b.top + popupMargin)
    else
      min (mouseY - popupMargin) (b.bottom - popupHeight - popupMargin)
  { left := max (b.left + popupMargin) (min left0 (b.right - popupWidth - popupMargin))
    top := max (b.top + popupMargin) (min top0 (b.bottom - popupHeight - popupMargin)) }

/-! ## Helper lemmas for the rounding arithmetic -/

lemma round_mono_q {x y : ℚ} (h : x ≤ y) : round x ≤ round y := by
  rw [round_eq, round_eq]
  exact Int.floor_le_floor (by linarith)

lemma jsRound10_ge_int (x : ℚ) (k : ℤ) (hk : (k : ℚ) ≤ x * 10) :
    (k : ℚ) / 10 ≤ jsRound10 x := by
  have h1 : k ≤ round (x * 10) := by
    calc k = round ((k : ℚ)) := (round_intCast k).symm
    _ ≤ round (x * 10) := round_mono_q hk
  have h2 : (k : ℚ) ≤ ((round (x * 10) : ℤ) : ℚ) := by exact_mod_cast h1
  unfold jsRound10
  linarith

lemma jsRound10_le_int (x : ℚ) (k : ℤ) (hk : x * 10 ≤ (k : ℚ)) :
    jsRound10 x ≤ (k : ℚ) / 10 := by
  have h1 : round (x * 10) ≤ k := by
    calc round (x * 10) ≤ round ((k : ℚ)) := round_mono_q hk
    _ = k := round_intCast k
  have h2 : ((round (x * 10) : ℤ) : ℚ) ≤ (k : ℚ) := by exact_mod_cast h1
  unfold jsRound10
  linarith

/-! ## Claim C4 -/

/-- Claim C4: zoomIn never raises the current zoom above max and zoomOut never
lowers it below min; when the current zoom is already at the bound the call is
a no-op, so repeated zoomIn calls are idempotent at max and repeated zoomOut
calls are idempotent at min.  Stated for the V1 operations and for the V2
operations with decimal rounding (for V2 the bound is a one-decimal value, as
every bound produced by the breakpoint effect is). -/
theorem zoom_clamped_at_bounds :
    (∀ s : V1State, s.zoom.current ≤ s.zoom.max → (zoomInV1 s).zoom.current ≤ s.zoom.max) ∧
    (∀ s : V1State, s.zoom.min ≤ s.zoom.current → s.zoom.min ≤ (zoomOutV1 s).zoom.current) ∧
    (∀ s : V1State, 0 ≤ s.zoom.step → s.zoom.current = s.zoom.max → zoomInV1 s = s) ∧
    (∀ s : V1State, 0 ≤ s.zoom.step → s.zoom.current = s.zoom.min → zoomOutV1 s = s) ∧
    (∀ (bp : Breakpoint) (s : V2State),
      s.zoom.current ≤ s.zoom.max → (zoomInV2 bp s).zoom.current ≤ s.zoom.max) ∧
    (∀ (bp : Breakpoint) (s : V2State),
      s.zoom.min ≤ s.zoom.current → s.zoom.min ≤ (zoomOutV2 bp s).zoom.current) ∧
    (∀ (bp : Breakpoint) (s : V2State), 0 ≤ s.zoom.step → (∃ k : ℤ, s.zoom.max * 10 = k) →
      s.zoom.current = s.zoom.max → zoomInV2 bp s = s) ∧
    (∀ (bp : Breakpoint) (s : V2State), 0 ≤ s.zoom.step → (∃ k : ℤ, s.zoom.min * 10 = k) →
      s.zoom.current = s.zoom.min → zoomOutV2 bp s = s) := by
  refine ⟨?_, ?_, ?_, ?_, ?_, ?_, ?_, ?_⟩
  · intro s h
    unfold zoomInV1
    split
    · exact min_le_right _ _
    · exact h
  · intro s h
    unfold zoomOutV1
    split
    · exact le_max_right _ _
    · exact h
  · rintro ⟨e, c, mn, mx, st⟩ hstep hcur
    simp only at hstep hcur
    subst hcur
    unfold zoomInV1
    split
    · simp only [V1State.mk.injEq, ZoomState.mk.injEq, and_true, true_and]
      exact min_eq_right (le_add_of_nonneg_right hstep)
    · rfl
  · rintro ⟨e, c, mn, mx, st⟩ hstep hcur
    simp only at hstep hcur
    subst hcur
    unfold zoomOutV1
    split
    · simp only [V1State.mk.injEq, ZoomState.mk.injEq, and_true, true_and]
      exact max_eq_right (by linarith)
    · rfl
  · intro bp s h
    unfold zoomInV2
    split
    · dsimp only
      split
      · exact h
      · split
        · exact min_le_right _ _
        · exact min_le_right _ _
    · exact h
  · intro bp s h
    unfold zoomOutV2
    split
    · dsimp only
      split
      · exact h
      · split
        · exact le_max_right _ _
        · exact le_max_right _ _
    · exact h
  · rintro bp s hstep ⟨k, hk⟩ hcur
    unfold zoomInV2
    split
    · dsimp only
      have hge : s.zoom.max ≤ jsRound10 (s.zoom.current + s.zoom.step) := by
        have h10 : (k : ℚ) ≤ (s.zoom.current + s.zoom.step) * 10 := by
          rw [hcur]
          nlinarith
        have := jsRound10_ge_int (s.zoom.current + s.zoom.step) k h10
        have hmax : s.zoom.max = (k : ℚ) / 10 := by
          field_simp
          linarith [hk]
        linarith
      have : min (jsRound10 (s.zoom.current + s.zoom.step)) s.zoom.max = s.zoom.current := by
        rw [min_eq_right hge, hcur]
      rw [if_pos this]
    · rfl
  · rintro bp s hstep ⟨k, hk⟩ hcur
    unfold zoomOutV2
    split
    · dsimp only
      have hle : jsRound10 (s.zoom.current - s.zoom.step) ≤ s.zoom.min := by
        have h10 : (s.zoom.current - s.zoom.step) * 10 ≤ (k : ℚ) := by
          rw [hcur]
          nlinarith
        have := jsRound10_le_int (s.zoom.current - s.zoom.step) k h10
        have hmin : s.zoom.min = (k : ℚ) / 10 := by
          field_simp
          linarith [hk]
        linarith
      have : max (jsRound10 (s.zoom.current - s.zoom.step)) s.zoom.min = s.zoom.current := by
        rw [max_eq_right hle, hcur]
      rw [if_pos this]
    · rfl

/-- Witness for C4 at a concrete desktop state sitting at its maximal zoom. -/
theorem zoom_clamped_at_bounds_witness :
    (zoomInV1 ⟨true, ⟨19/10, 13/10, 19/10, 2/10⟩⟩).zoom.current ≤ 19/10 ∧
    zoomInV1 ⟨true, ⟨19/10, 13/10, 19/10, 2/10⟩⟩ = ⟨true, ⟨19/10, 13/10, 19/10, 2/10⟩⟩ ∧
    zoomInV2 bpDesktop ⟨true, ⟨16/10, 13/10, 16/10, 1/10⟩, 65⟩ =
      ⟨true, ⟨16/10, 13/10, 16/10, 1/10⟩, 65⟩ := by
  refine ⟨?_, ?_, ?_⟩
  · exact zoom_clamped_at_bounds.1 ⟨true, ⟨19/10, 13/10, 19/10, 2/10⟩⟩ (by norm_num)
  · exact zoom_clamped_at_bounds.2.2.1 ⟨true, ⟨19/10, 13/10, 19/10, 2/10⟩⟩ (by norm_num)
      (by norm_num)
  · exact zoom_clamped_at_bounds.2.2.2.2.2.2.1 bpDesktop ⟨true, ⟨16/10, 13/10, 16/10, 1/10⟩, 65⟩
      (by norm_num) ⟨16, by norm_num⟩ (by norm_num)

/-! ## Claim C5 -/

/-- Counterexample for C5: on the desktop breakpoint class the minimum is 1.3,
but V1 resetZoom sets the current zoom to the hardcoded value 1.1, not the
class minimum. -/
theorem resetZoom_not_min_counterexample :
    (resetZoomV1 desktopV1State).zoom.current ≠ desktopV1State.zoom.min := by
  norm_num [resetZoomV1, desktopV1State, deriveZoomV1, bpDesktop]

/-- Claim C5 (amended): only the V2 iteration resets the current zoom to the
class-specific minimum; the V1 and V3 iterations (and unnamed/part_001) set
the current zoom to the constant 1.1 regardless of the breakpoint class. -/
theorem resetZoom_amended :
    (∀ (bp : Breakpoint) (s : V2State), s.earthInstance = true →
      (resetZoomV2 bp s).zoom.current = s.zoom.min) ∧
    (∀ s : V1State, s.earthInstance = true → (resetZoomV1 s).zoom.current = 11/10) := by
  constructor
  · intro bp s he
    unfold resetZoomV2
    rw [if_pos he]
    dsimp only
    split <;> rfl
  · intro s he
    unfold resetZoomV1
    rw [if_pos he]

/-- Witness for the amended C5 at concrete desktop states. -/
theorem resetZoom_amended_witness :
    (resetZoomV2 bpDesktop ⟨true, deriveZoomV2 bpDesktop, 65⟩).zoom.current =
      (deriveZoomV2 bpDesktop).min ∧
    (resetZoomV1 desktopV1State).zoom.current = 11/10 := by
  constructor
  · exact resetZoom_amended.1 bpDesktop ⟨true, deriveZoomV2 bpDesktop, 65⟩ rfl
  · exact resetZoom_amended.2 desktopV1State rfl

/-! ## Claim C6 -/

/-- Counterexample for C6: the invariant min ≤ current ≤ max holds in the
freshly derived desktop state but is destroyed by V1 resetZoom, which writes
1.1 below the desktop minimum 1.3. -/
theorem zoom_invariant_counterexample :
    zoomInvariant desktopV1State.zoom ∧
    ¬ zoomInvariant (resetZoomV1 desktopV1State).zoom := by
  constructor
  · constructor <;> norm_num [desktopV1State, deriveZoomV1, bpDesktop]
  · intro h
    have := h.1
    norm_num [resetZoomV1, desktopV1State, deriveZoomV1, bpDesktop] at this

/-- Claim C6 (amended): the invariant min ≤ current ≤ max holds after the
breakpoint effect recomputes the viewport state for every breakpoint
combination (both the V1 and V2 derivations, whose initial value is the
minimum), and it is preserved by zoomIn and zoomOut and by the V2 resetZoom;
the V1 and V3 resetZoom break it by writing the constant 1.1. -/
theorem zoom_invariant_amended :
    (∀ bp : Breakpoint, zoomInvariant (deriveZoomV1 bp)) ∧
    (∀ bp : Breakpoint, zoomInvariant (deriveZoomV2 bp)) ∧
    (∀ s : V1State, 0 ≤ s.zoom.step → zoomInvariant s.zoom →
      zoomInvariant (zoomInV1 s).zoom) ∧
    (∀ s : V1State, 0 ≤ s.zoom.step → zoomInvariant s.zoom →
      zoomInvariant (zoomOutV1 s).zoom) ∧
    (∀ (bp : Breakpoint) (s : V2State), zoomInvariant s.zoom →
      zoomInvariant (resetZoomV2 bp s).zoom) := by
  refine ⟨?_, ?_, ?_, ?_, ?_⟩
  · rintro ⟨m, t, d⟩
    constructor <;> cases m <;> cases t <;> cases d <;> norm_num [deriveZoomV1]
  · rintro ⟨m, t, d⟩
    constructor <;> cases m <;> cases t <;> cases d <;> norm_num [deriveZoomV2]
  · rintro s hstep ⟨h1, h2⟩
    unfold zoomInV1
    split
    · exact ⟨le_min (by linarith) (by linarith), min_le_right _ _⟩
    · exact ⟨h1, h2⟩
  · rintro s hstep ⟨h1, h2⟩
    unfold zoomOutV1
    split
    · exact ⟨le_max_right _ _, max_le (by linarith) (by linarith)⟩
    · exact ⟨h1, h2⟩
  · rintro bp s ⟨h1, h2⟩
    unfold resetZoomV2
    split
    · dsimp only
      split
      · exact ⟨le_refl _, le_trans h1 h2⟩
      · exact ⟨le_refl _, le_trans h1 h2⟩
    · exact ⟨h1, h2⟩

/-- Witness for the amended C6 on the mobile breakpoint. -/
theorem zoom_invariant_amended_witness :
    zoomInvariant (deriveZoomV1 ⟨true, false, false⟩) ∧
    zoomInvariant (zoomInV1 ⟨true, deriveZoomV1 ⟨true, false, false⟩⟩).zoom := by
  constructor
  · exact zoom_invariant_amended.1 ⟨true, false, false⟩
  · exact zoom_invariant_amended.2.2.1 ⟨true, deriveZoomV1 ⟨true, false, false⟩⟩
      (by norm_num [deriveZoomV1]) (zoom_invariant_amended.1 ⟨true, false, false⟩)

/-! ## Claim C8 -/

/-- Claim C8: for every pointer position, calculateSmartPopupPosition returns
coordinates inside [left+margin, right-width-margin] ×
[top+margin, bottom-height-margin], provided the bounding rectangle is large
enough for those intervals to be nonempty (which holds for the real globe
container and the fixed 380 × 500 popup). -/
theorem smartPopup_within_bounds (mouseX mouseY : ℚ) (b : Rect)
    (hw : b.left + popupMargin ≤ b.right - popupWidth - popupMargin)
    (hh : b.top + popupMargin ≤ b.bottom - popupHeight - popupMargin) :
    b.left + popupMargin ≤ (calculateSmartPopupPosition mouseX mouseY b).left ∧
    (calculateSmartPopupPosition mouseX mouseY b).left ≤ b.right - popupWidth - popupMargin ∧
    b.top + popupMargin ≤ (calculateSmartPopupPosition mouseX mouseY b).top ∧
    (calculateSmartPopupPosition mouseX mouseY b).top ≤ b.bottom - popupHeight - popupMargin := by
  unfold calculateSmartPopupPosition
  refine ⟨le_max_left _ _, max_le hw (min_le_right _ _),
    le_max_left _ _, max_le hh (min_le_right _ _)⟩

/-- Witness for C8 on a 1000 × 1000 rectangle with the pointer at its center. -/
theorem smartPopup_within_bounds_witness :
    (0 : ℚ) + popupMargin ≤ (calculateSmartPopupPosition 500 500 ⟨0, 1000, 0, 1000⟩).left ∧
    (calculateSmartPopupPosition 500 500 ⟨0, 1000, 0, 1000⟩).left ≤ 1000 - popupWidth - popupMargin ∧
    (0 : ℚ) + popupMargin ≤ (calculateSmartPopupPosition 500 500 ⟨0, 1000, 0, 1000⟩).top ∧
    (calculateSmartPopupPosition 500 500 ⟨0, 1000, 0, 1000⟩).top ≤ 1000 - popupHeight - popupMargin :=
  smartPopup_within_bounds 500 500 ⟨0, 1000, 0, 1000⟩
    (by norm_num [popupWidth, popupMargin]) (by norm_num [popupHeight, popupMargin])

/-! ## Script loader -/

inductive ScriptPromise where
  | absent
  | pending
  | resolvedDone
  deriving Repr, DecidableEq

structure LoaderState where
  earthGlobal : Bool
  loadPromise : ScriptPromise
  scriptsAppended : Nat
  deriving Repr, DecidableEq

def initLoaderState : LoaderState := ⟨false, .absent, 0⟩

/-- The V2 / part_001 loadEarthScript with the module-level loadPromise cache:
resolve immediately when the engine global is present; otherwise inject a
script only when no promise is cached. -/
def loadEarthScriptV2 (s : LoaderState) : LoaderState :=
  if s.earthGlobal then s
  else
    match s.loadPromise with
    | .absent => { s with loadPromise := .pending, scriptsAppended := s.scriptsAppended + 1 }
    | _ => s

/-- The script element onload handler: the loaded script defines the engine
global and the cached promise resolves. -/
def scriptLoadSuccess (s : LoaderState) : LoaderState :=
  if s.loadPromise = .pending then { s with earthGlobal := true, loadPromise := .resolvedDone }
  else s

/-- The script element onerror handler: the cached promise is rejected and
cleared (`loadPromise = null`) so that a later call may retry. -/
def scriptLoadFailure (s : LoaderState) : LoaderState :=
  if s.loadPromise = .pending then { s with loadPromise := .absent }
  else s

/-- The V3 loadEarthScript, which has no cache: whenever the engine global is
absent it builds a fresh promise and appends a fresh script element. -/
def loadEarthScriptV3 (s : LoaderState) : LoaderState :=
  if s.earthGlobal then s
  else { s with loadPromise := .pending, scriptsAppended := s.scriptsAppended + 1 }

inductive LoadEvent where
  | call
  | success
  | failure
  deriving Repr, DecidableEq

def loaderStep (s : LoaderState) : LoadEvent → LoaderState
  | .call => loadEarthScriptV2 s
  | .success => scriptLoadSuccess s
  | .failure => scriptLoadFailure s

def runLoader (evs : List LoadEvent) : LoaderState := evs.foldl loaderStep initLoaderState

def countFailures (evs : List LoadEvent) : Nat :=
  evs.countP (fun e => e == .failure)

/-- Potential function: appended scripts plus one while no promise is cached. -/
def loaderPotential (s : LoaderState) : Nat :=
  s.scriptsAppended + (match s.loadPromise with | .absent => 1 | _ => 0)

lemma loaderStep_potential (s : LoaderState) (e : LoadEvent) :
    loaderPotential (loaderStep s e) ≤ loaderPotential s + (if e == .failure then 1 else 0) := by
  cases e with
  | call =>
    simp only [loaderStep, loadEarthScriptV2]
    split
    · simp
    · cases h : s.loadPromise <;> simp [loaderPotential, h]
  | success =>
    simp only [loaderStep, scriptLoadSuccess]
    split
    · rename_i h
      simp [loaderPotential, h]
    · simp
  | failure =>
    simp only [loaderStep, scriptLoadFailure]
    split
    · rename_i h
      simp [loaderPotential, h]
    · simp

lemma foldl_loaderStep_potential (evs : List LoadEvent) :
    ∀ s : LoaderState,
      loaderPotential (evs.foldl loaderStep s) ≤ loaderPotential s + countFailures evs := by
  induction evs with
  | nil => intro s; simp [countFailures]
  | cons e rest ih =>
    intro s
    have h1 := loaderStep_potential s e
    have h2 := ih (loaderStep s e)
    simp only [List.foldl_cons, countFailures, List.countP_cons] at h2 ⊢
    cases he : (e == LoadEvent.failure) <;> simp [he] at h1 ⊢ <;> omega

/-! ## Claim C9 -/

/-- Counterexample for C9: the V3 loadEarthScript has no cached promise, so two
calls made while the engine global is absent append two script elements, not
one. -/
theorem loadScript_counterexample :
    (loadEarthScriptV3 (loadEarthScriptV3 initLoaderState)).scriptsAppended = 2 := rfl

/-- Claim C9 (amended): in the iterations with the module-level loadPromise
cache (V2 and unnamed/part_001) the script is injected at most once per page
session unless a load fails - over any event sequence the number of appended
script elements is at most one more than the number of load failures; a call
while a promise is cached appends nothing; a call with the engine global
present is a complete no-op; and after a load failure the cache is cleared so
the next call injects a fresh script.  The V3 iteration lacks the cache and
appends a fresh script element on every call made while the engine global is
absent. -/
theorem loadScript_amended :
    (∀ evs : List LoadEvent, (runLoader evs).scriptsAppended ≤ 1 + countFailures evs) ∧
    (∀ s : LoaderState, s.loadPromise ≠ .absent →
      (loadEarthScriptV2 s).scriptsAppended = s.scriptsAppended) ∧
    (∀ s : LoaderState, s.earthGlobal = true → loadEarthScriptV2 s = s) ∧
    (∀ s : LoaderState, s.earthGlobal = false → s.loadPromise = .pending →
      (loadEarthScriptV2 (scriptLoadFailure s)).scriptsAppended = s.scriptsAppended + 1) ∧
    (∀ s : LoaderState, s.earthGlobal = false →
      (loadEarthScriptV3 s).scriptsAppended = s.scriptsAppended + 1) := by
  refine ⟨?_, ?_, ?_, ?_, ?_⟩
  · intro evs
    have h := foldl_loaderStep_potential evs initLoaderState
    have h0 : loaderPotential initLoaderState = 1 := rfl
    have h1 : (runLoader evs).scriptsAppended ≤ loaderPotential (runLoader evs) := by
      unfold loaderPotential
      omega
    unfold runLoader at h1 ⊢
    omega
  · intro s h
    unfold loadEarthScriptV2
    split
    · rfl
    · cases hp : s.loadPromise
      · exact absurd hp h
      · simp [hp]
      · simp [hp]
  · intro s h
    unfold loadEarthScriptV2
    rw [if_pos h]
  · intro s hg hp
    simp [scriptLoadFailure, hp, loadEarthScriptV2, hg]
  · intro s hg
    simp [loadEarthScriptV3, hg]

/-- Witness for the amended C9: a session with one failed load followed by a
retry appends two scripts (bound 1 + 1), and the v3 behaviour at the initial
state. -/
theorem loadScript_amended_witness :
    (runLoader [.call, .failure, .call, .success]).scriptsAppended ≤
      1 + countFailures [.call, .failure, .call, .success] ∧
    loadEarthScriptV2 ⟨true, .absent, 5⟩ = ⟨true, .absent, 5⟩ ∧
    (loadEarthScriptV3 initLoaderState).scriptsAppended = initLoaderState.scriptsAppended + 1 := by
  refine ⟨?_, ?_, ?_⟩
  · exact loadScript_amended.1 [.call, .failure, .call, .success]
  · exact loadScript_amended.2.2.1 ⟨true, .absent, 5⟩ rfl
  · exact loadScript_amended.2.2.2.2 initLoaderState rfl

/-! ## Marker creation primitives shared by the iterations -/

/-- Result of one call of the engine marker factory `earth.addSprite(...)`:
it may return a sprite, return a falsy value, or throw. -/
inductive AddResult where
  | created
  | falsy
  | thrown
  deriving Repr, DecidableEq

/-- The safety-check block run before `earth.addSprite` in every iteration:
`hasValidGroup && hasValidLatLng && hasValidImage && earthAvailable`, where the
latitude/longitude of the first group member must be finite numbers. -/
def spriteChecks (earthAvailable : Bool) (centers : List DataCenterRecord)
    (region : String) : Bool :=
  let group := regionGroup centers region
  let isMultiple := decide (1 < group.length)
  let imageFile := if isMultiple then "real-multiple.svg" else "real-single.svg"
  let hasValidGroup := decide (0 < group.length)
  let hasValidLatLng :=
    match group.head? with
    | some first => isFiniteNumber first.latitude && isFiniteNumber first.longitude
    | none => false
  let hasValidImage := decide (0 < imageFile.length)
  hasValidGroup && hasValidLatLng && hasValidImage && earthAvailable

/-- One marker-creation attempt in the V3 createSprites loop (no retry queue):
true iff a sprite was created and bound for the region. -/
def tryRegionV3 (engine : String → AddResult) (earthAvailable : Bool)
    (centers : List DataCenterRecord) (region : String) : Bool :=
  if !(spriteChecks earthAvailable centers region) then false
  else
    match engine region with
    | .created => true
    | .falsy => false
    | .thrown => false

/-- The regions that obtain a sprite during one full V3 createSprites pass
(the batching only spreads the same per-region attempts over 100 ms timers). -/
def createSpritesListV3 (engine : String → AddResult) (earthAvailable : Bool)
    (centers : List DataCenterRecord) : List String :=
  (regionKeys centers).filter (fun r => tryRegionV3 engine earthAvailable centers r)

/-! ## V3 controller state and recovery -/

def maxRecoveryAttempts : Nat := 3

structure V3State where
  earthInstance : Bool
  isRecovering : Bool
  contextLostCount : Nat
  zoom : ZoomState
  autoRotate : Bool
  popupVisible : Bool
  popupGroup : List DataCenterRecord
  popupExpandedIndex : Int
  hideTimer : Bool
  sprites : List String
  dataCenters : List DataCenterRecord
  deriving Repr, DecidableEq

/-- The V3 component state right after mount, before any engine work. -/
def initialV3State : V3State :=
  { earthInstance := false
    isRecovering := false
    contextLostCount := 0
    zoom := ⟨13/10, 13/10, 19/10, 2/10⟩
    autoRotate := true
    popupVisible := false
    popupGroup := []
    popupExpandedIndex := 0
    hideTimer := false
    sprites := []
    dataCenters := [] }

/-- V3 zoomIn, guarded by `earthInstanceRef.current && !isRecovering.current`. -/
def zoomInV3 (s : V3State) : V3State :=
  if s.earthInstance && !s.isRecovering then
    { s with zoom := { s.zoom with current := min (s.zoom.current + s.zoom.step) s.zoom.max } }
  else s

/-- V3 zoomOut, with the same recovery guard. -/
def zoomOutV3 (s : V3State) : V3State :=
  if s.earthInstance && !s.isRecovering then
    { s with zoom := { s.zoom with current := max (s.zoom.current - s.zoom.step) s.zoom.min } }
  else s

/-- V3 resetZoom, with the same recovery guard (it writes the constant 1.1,
like V1). -/
def resetZoomV3 (s : V3State) : V3State :=
  if s.earthInstance && !s.isRecovering then
    { s with zoom := { s.zoom with current := 11/10 } }
  else s

def disableEarthInteractionV3 (s : V3State) : V3State :=
  if s.earthInstance && !s.isRecovering then { s with autoRotate := false } else s

def enableEarthInteractionV3 (s : V3State) : V3State :=
  if s.earthInstance && !s.isRecovering then { s with autoRotate := true } else s

/-- V3 showPopup: returns immediately while recovering; otherwise cancels a
pending hide timer, shows the popup for the group with the first entry
expanded, and disables globe interaction. -/
def showPopupV3 (g : List DataCenterRecord) (s : V3State) : V3State :=
  if s.isRecovering then s
  else
    disableEarthInteractionV3
      { s with hideTimer := false, popupGroup := g, popupExpandedIndex := 0, popupVisible := true }

/-- V3 hidePopup: a no-op while a hide is already scheduled or while
recovering; otherwise schedules the debounced hide. -/
def hidePopupV3 (s : V3State) : V3State :=
  if s.hideTimer || s.isRecovering then s
  else { s with hideTimer := true }

/-- The debounced hide timer firing 150 ms later. -/
def hidePopupTimerFireV3 (s : V3State) : V3State :=
  enableEarthInteractionV3
    { s with popupVisible := false, popupGroup := [], popupExpandedIndex := -1, hideTimer := false }

/-- V3 createSprites as a state operation: it returns early when the centers
list is empty and creates nothing while recovering (createSpriteBatch checks
the recovery flag before each batch); otherwise the created sprites are pushed
onto the sprite cache. -/
def createSpritesOpV3 (engine : String → AddResult) (earthAvailable : Bool)
    (centers : List DataCenterRecord) (s : V3State) : V3State :=
  if centers.length = 0 then s
  else if s.isRecovering then s
  else { s with sprites := s.sprites ++ createSpritesListV3 engine earthAvailable centers }

/-- The initial zoom chosen by V3 initializeEarth per device class. -/
def initialZoomV3 (bp : Breakpoint) : ℚ :=
  if bp.isMedium then 1 else 13/10

/-- The 50 ms-delayed initial-zoom application in V3 initializeEarth; it checks
the recovery flag before touching the zoom state. -/
def applyInitialZoomV3 (bp : Breakpoint) (s : V3State) : V3State :=
  if s.isRecovering then s
  else { s with zoom := { s.zoom with current := initialZoomV3 bp } }

/-- V3 initializeEarth: when the engine global is present it creates the engine
instance, applies the initial zoom, reuses the cached data-center records when
present (otherwise filters and caches the fetched records), and creates the
sprites.  It never touches the recovery counter or the recovery flag. -/
def initEarthV3 (earthGlobal : Bool) (engine : String → AddResult)
    (fetched : List DataCenterRecord) (bp : Breakpoint) (s : V3State) : V3State :=
  if earthGlobal then
    let s1 := { s with earthInstance := true }
    let s2 := applyInitialZoomV3 bp s1
    let centers := if 0 < s2.dataCenters.length then s2.dataCenters else filterCenters fetched
    let s3 := { s2 with dataCenters := centers }
    createSpritesOpV3 engine true centers s3
  else s

/-- V3 recoverWebGLContext: returns immediately while already recovering or
once the counter has reached the cap; otherwise marks recovery, increments the
counter, best-effort destroys the stale instance, clears the sprite cache,
waits, reinitializes, and in the finally block clears the recovery flag. -/
def recoverWebGLContextV3 (init : V3State → V3State) (s : V3State) : V3State :=
  if s.isRecovering = true ∨ maxRecoveryAttempts ≤ s.contextLostCount then s
  else
    let s1 := { s with isRecovering := true, contextLostCount := s.contextLostCount + 1 }
    let s2 := { s1 with earthInstance := false, sprites := [] }
    let s3 := init s2
    { s3 with isRecovering := false }

/-! ## Auxiliary facts about V3 initialization and recovery -/

lemma createSpritesOpV3_dataCenters (engine : String → AddResult) (avail : Bool)
    (centers : List DataCenterRecord) (s : V3State) :
    (createSpritesOpV3 engine avail centers s).dataCenters = s.dataCenters := by
  unfold createSpritesOpV3
  split
  · rfl
  · split <;> rfl

lemma createSpritesOpV3_contextLostCount (engine : String → AddResult) (avail : Bool)
    (centers : List DataCenterRecord) (s : V3State) :
    (createSpritesOpV3 engine avail centers s).contextLostCount = s.contextLostCount := by
  unfold createSpritesOpV3
  split
  · rfl
  · split <;> rfl

lemma createSpritesOpV3_isRecovering (engine : String → AddResult) (avail : Bool)
    (centers : List DataCenterRecord) (s : V3State) :
    (createSpritesOpV3 engine avail centers s).isRecovering = s.isRecovering := by
  unfold createSpritesOpV3
  split
  · rfl
  · split <;> rfl

lemma applyInitialZoomV3_fields (bp : Breakpoint) (s : V3State) :
    (applyInitialZoomV3 bp s).contextLostCount = s.contextLostCount ∧
    (applyInitialZoomV3 bp s).isRecovering = s.isRecovering ∧
    (applyInitialZoomV3 bp s).dataCenters = s.dataCenters := by
  unfold applyInitialZoomV3
  split <;> exact ⟨rfl, rfl, rfl⟩

lemma initEarthV3_contextLostCount (eg : Bool) (engine : String → AddResult)
    (fetched : List DataCenterRecord) (bp : Breakpoint) (s : V3State) :
    (initEarthV3 eg engine fetched bp s).contextLostCount = s.contextLostCount := by
  unfold initEarthV3
  split
  · rw [createSpritesOpV3_contextLostCount]
    exact (applyInitialZoomV3_fields bp _).1
  · rfl

lemma initEarthV3_isRecovering (eg : Bool) (engine : String → AddResult)
    (fetched : List DataCenterRecord) (bp : Breakpoint) (s : V3State) :
    (initEarthV3 eg engine fetched bp s).isRecovering = s.isRecovering := by
  unfold initEarthV3
  split
  · rw [createSpritesOpV3_isRecovering]
    exact (applyInitialZoomV3_fields bp _).2.1
  · rfl

lemma recoverV3_eq_self (init : V3State → V3State) (s : V3State)
    (h : s.isRecovering = true ∨ maxRecoveryAttempts ≤ s.contextLostCount) :
    recoverWebGLContextV3 init s = s := by
  unfold recoverWebGLContextV3
  rw [if_pos h]

lemma recoverV3_count (init : V3State → V3State)
    (hc : ∀ t, (init t).contextLostCount = t.contextLostCount) (s : V3State) :
    (recoverWebGLContextV3 init s).contextLostCount =
      if s.isRecovering = true ∨ maxRecoveryAttempts ≤ s.contextLostCount then
        s.contextLostCount
      else s.contextLostCount + 1 := by
  unfold recoverWebGLContextV3
  split
  · rfl
  · simp [hc]

lemma recoverV3_isRecovering (init : V3State → V3State) (s : V3State)
    (h : s.isRecovering = false) :
    (recoverWebGLContextV3 init s).isRecovering = false := by
  unfold recoverWebGLContextV3
  split
  · exact h
  · rfl

lemma recoverV3_iterate (init : V3State → V3State)
    (hc : ∀ t, (init t).contextLostCount = t.contextLostCount) :
    ∀ k : Nat,
      ((recoverWebGLContextV3 init)^[k] initialV3State).isRecovering = false ∧
      ((recoverWebGLContextV3 init)^[k] initialV3State).contextLostCount =
        min k maxRecoveryAttempts := by
  intro k
  induction k with
  | zero => exact ⟨rfl, rfl⟩
  | succ k ih =>
    obtain ⟨ih1, ih2⟩ := ih
    rw [Function.iterate_succ_apply']
    constructor
    · exact recoverV3_isRecovering init _ ih1
    · rw [recoverV3_count init hc _, ih1, ih2]
      simp only [maxRecoveryAttempts]
      split
      · rename_i h
        rcases h with h | h
        · simp at h
        · omega
      · rename_i h
        push_neg at h
        have h2 := h.2
        omega

lemma recoverV3_iterate_stable (init : V3State → V3State)
    (hc : ∀ t, (init t).contextLostCount = t.contextLostCount) :
    ∀ n : Nat, maxRecoveryAttempts ≤ n →
      (recoverWebGLContextV3 init)^[n] initialV3State =
        (recoverWebGLContextV3 init)^[maxRecoveryAttempts] initialV3State := by
  intro n hn
  induction n with
  | zero => simp [maxRecoveryAttempts] at hn
  | succ n ih =>
    rcases Nat.lt_or_ge maxRecoveryAttempts (n + 1) with hlt | hge
    · have hn' : maxRecoveryAttempts ≤ n := by omega
      rw [Function.iterate_succ_apply', ih hn']
      apply recoverV3_eq_self
      right
      rw [(recoverV3_iterate init hc maxRecoveryAttempts).2]
      omega
    · have : n + 1 = maxRecoveryAttempts := by omega
      rw [this]

/-! ## Claim C2 -/

/-- Claim C2: for one controller instance the recovery counter
contextLostCount is never decremented, and once it has reached
maxRecoveryAttempts (3), recoverWebGLContext performs no further
reinitialization: every subsequent context-loss event leaves the whole state
unchanged, and after any number n ≥ 3 of consecutive context-loss events the
counter equals exactly 3. -/
theorem recoverWebGL_lostCount_cap (eg : Bool) (engine : String → AddResult)
    (fetched : List DataCenterRecord) (bp : Breakpoint) :
    (∀ s : V3State, s.contextLostCount ≤
      (recoverWebGLContextV3 (initEarthV3 eg engine fetched bp) s).contextLostCount) ∧
    (∀ s : V3State, maxRecoveryAttempts ≤ s.contextLostCount →
      recoverWebGLContextV3 (initEarthV3 eg engine fetched bp) s = s) ∧
    (∀ n : Nat, maxRecoveryAttempts ≤ n →
      ((recoverWebGLContextV3 (initEarthV3 eg engine fetched bp))^[n]
          initialV3State).contextLostCount = maxRecoveryAttempts ∧
      (recoverWebGLContextV3 (initEarthV3 eg engine fetched bp))^[n] initialV3State =
        (recoverWebGLContextV3 (initEarthV3 eg engine fetched bp))^[maxRecoveryAttempts]
          initialV3State) := by
  have hc := initEarthV3_contextLostCount eg engine fetched bp
  have hr := initEarthV3_isRecovering eg engine fetched bp
  refine ⟨?_, ?_, ?_⟩
  · intro s
    rw [recoverV3_count _ hc s]
    split
    · exact le_refl _
    · omega
  · intro s h
    exact recoverV3_eq_self _ s (Or.inr h)
  · intro n hn
    constructor
    · rw [recoverV3_iterate_stable _ hc n hn,
        (recoverV3_iterate _ hc maxRecoveryAttempts).2]
      exact min_self _
    · exact recoverV3_iterate_stable _ hc n hn

/-- Witness for C2 with a stub engine, concrete records and the desktop
breakpoint: a state whose counter already sits at the cap is left unchanged,
and five consecutive loss events from mount leave the counter at exactly 3. -/
theorem recoverWebGL_lostCount_cap_witness :
    recoverWebGLContextV3
        (initEarthV3 true (fun _ => AddResult.thrown) [] bpDesktop)
        { initialV3State with contextLostCount := 3 } =
      { initialV3State with contextLostCount := 3 } ∧
    ((recoverWebGLContextV3 (initEarthV3 true (fun _ => AddResult.thrown) [] bpDesktop))^[5]
        initialV3State).contextLostCount = maxRecoveryAttempts := by
  constructor
  · exact (recoverWebGL_lostCount_cap true (fun _ => AddResult.thrown) [] bpDesktop).2.1
      { initialV3State with contextLostCount := 3 } (by decide)
  · exact ((recoverWebGL_lostCount_cap true (fun _ => AddResult.thrown) [] bpDesktop).2.2
      5 (by decide)).1

/-! ## Claim C3 -/

/-- Claim C3: while the V3 controller is recovering from a lost GPU context
(isRecovering true), every zoom-, popup- or marker-mutating operation is a
no-op (it returns the state unchanged instead of throwing); in particular
zoomIn leaves the current zoom unchanged. -/
theorem recovering_ops_noop (g : List DataCenterRecord) (engine : String → AddResult)
    (avail : Bool) (centers : List DataCenterRecord) :
    ∀ s : V3State, s.isRecovering = true →
      zoomInV3 s = s ∧ zoomOutV3 s = s ∧ resetZoomV3 s = s ∧
      showPopupV3 g s = s ∧ hidePopupV3 s = s ∧
      createSpritesOpV3 engine avail centers s = s ∧
      (zoomInV3 s).zoom.current = s.zoom.current := by
  intro s h
  have hz : zoomInV3 s = s := by
    unfold zoomInV3
    rw [h]
    simp
  refine ⟨hz, ?_, ?_, ?_, ?_, ?_, by rw [hz]⟩
  · unfold zoomOutV3
    rw [h]
    simp
  · unfold resetZoomV3
    rw [h]
    simp
  · unfold showPopupV3
    rw [if_pos h]
  · unfold hidePopupV3
    rw [h]
    simp
  · simp [createSpritesOpV3, h]

/-- Witness for C3 on a concrete recovering state. -/
theorem recovering_ops_noop_witness :
    zoomInV3 { initialV3State with earthInstance := true, isRecovering := true } =
      { initialV3State with earthInstance := true, isRecovering := true } ∧
    (zoomInV3 { initialV3State with earthInstance := true, isRecovering := true }).zoom.current =
      { initialV3State with earthInstance := true, isRecovering := true }.zoom.current := by
  constructor
  · exact (recovering_ops_noop [] (fun _ => AddResult.created) true []
      { initialV3State with earthInstance := true, isRecovering := true } rfl).1
  · exact (recovering_ops_noop [] (fun _ => AddResult.created) true []
      { initialV3State with earthInstance := true, isRecovering := true } rfl).2.2.2.2.2.2

/-! ## Claim C10 -/

/-- Claim C10: the fetched data-center list is filtered to records with
total_nodes > 0 before grouping, so a record with zero or missing total_nodes
never appears in the filtered list, never appears in any region group (hence
produces no marker and no popup entry), and is excluded from the record cache
that recovery reuses. -/
theorem zero_total_nodes_excluded (records : List DataCenterRecord)
    (dc : DataCenterRecord) (h : jsGtZero dc.total_nodes = false) :
    dc ∉ filterCenters records ∧
    (∀ r, dc ∉ regionGroup (filterCenters records) r) ∧
    (∀ (engine : String → AddResult) (bp : Breakpoint) (s : V3State), s.dataCenters = [] →
      (initEarthV3 true engine records bp s).dataCenters = filterCenters records ∧
      dc ∉ (initEarthV3 true engine records bp s).dataCenters) := by
  have h1 : dc ∉ filterCenters records := by
    intro hmem
    have := (List.mem_filter.mp hmem).2
    rw [h] at this
    exact absurd this (by simp)
  refine ⟨h1, ?_, ?_⟩
  · intro r hmem
    exact h1 (List.mem_filter.mp hmem).1
  · intro engine bp s hempty
    have hdc : (initEarthV3 true engine records bp s).dataCenters = filterCenters records := by
      unfold initEarthV3
      rw [if_pos rfl]
      rw [createSpritesOpV3_dataCenters]
      have h2 : (applyInitialZoomV3 bp { s with earthInstance := true }).dataCenters = [] := by
        rw [(applyInitialZoomV3_fields bp _).2.2]
        exact hempty
      simp [h2]
    exact ⟨hdc, by rw [hdc]; exact h1⟩

/-- Witness for C10: a record with zero total_nodes among one valid record. -/
theorem zero_total_nodes_excluded_witness :
    (⟨"dcz", "Zero", "own", "Z", .num 1, .num 2, .num 0⟩ : DataCenterRecord) ∉
      filterCenters [⟨"dcz", "Zero", "own", "Z", .num 1, .num 2, .num 0⟩,
        ⟨"dc1", "One", "own", "R", .num 10, .num 20, .num 5⟩] ∧
    (⟨"dcz", "Zero", "own", "Z", .num 1, .num 2, .num 0⟩ : DataCenterRecord) ∉
      (initEarthV3 true (fun _ => AddResult.created)
        [⟨"dcz", "Zero", "own", "Z", .num 1, .num 2, .num 0⟩,
         ⟨"dc1", "One", "own", "R", .num 10, .num 20, .num 5⟩]
        bpDesktop initialV3State).dataCenters := by
  constructor
  · exact (zero_total_nodes_excluded _ _ (by norm_num [jsGtZero])).1
  · exact ((zero_total_nodes_excluded _ _ (by norm_num [jsGtZero])).2.2
      (fun _ => AddResult.created) bpDesktop initialV3State rfl).2

/-! ## The V2 / part_001 createSprites with bounded retry queue -/

def maxRetries : Nat := 3

/-- An entry of the failedQueue: `{ region, attempts }`. -/
structure FailedEntry where
  region : String
  attempts : Nat
  deriving Repr, DecidableEq

/-- One call of tryAddRegion: validation checks, then the engine factory,
whose outcome may depend on the retry round (round 0 is the initial pass).
Returns true iff a sprite was created and bound. -/
def tryAddRegion (engine : String → Nat → AddResult) (earthAvailable : Bool)
    (centers : List DataCenterRecord) (rnd : Nat) (region : String) : Bool :=
  if !(spriteChecks earthAvailable centers region) then false
  else
    match engine region rnd with
    | .created => true
    | .falsy => false
    | .thrown => false

/-- The initial batched pass over the region keys: each region is attempted
once (the batching only inserts 100 ms delays between groups of five and does
not change the attempt sequence); failures are queued with `attempts = 1`.
Returns (attempted trace, created sprites, failedQueue). -/
def initialBatchedPass (try1 : Nat → String → Bool) :
    List String → List String × List String × List FailedEntry
  | [] => ([], [], [])
  | r :: rest =>
    let out := initialBatchedPass try1 rest
    if try1 0 r then (r :: out.1, r :: out.2.1, out.2.2)
    else (r :: out.1, out.2.1, ⟨r, 1⟩ :: out.2.2)

structure RetryRoundOut where
  attempted : List String
  sprites : List String
  requeued : List FailedEntry
  abandoned : List String
  deriving Repr, DecidableEq

/-- One retry round over the entries taken from the failedQueue: every entry is
re-attempted; a failed entry has its attempts incremented and is requeued when
`attempts <= maxRetries`, otherwise it is logged as given up (abandoned). -/
def processRetryRound (try1 : Nat → String → Bool) (rnd : Nat) :
    List FailedEntry → RetryRoundOut
  | [] => ⟨[], [], [], []⟩
  | e :: rest =>
    let out := processRetryRound try1 rnd rest
    if try1 rnd e.region then
      ⟨e.region :: out.attempted, e.region :: out.sprites, out.requeued, out.abandoned⟩
    else if e.attempts + 1 ≤ maxRetries then
      ⟨e.region :: out.attempted, out.sprites,
        ⟨e.region, e.attempts + 1⟩ :: out.requeued, out.abandoned⟩
    else
      ⟨e.region :: out.attempted, out.sprites, out.requeued, e.region :: out.abandoned⟩

structure SpritesResult where
  attempted : List String
  sprites : List String
  abandoned : List String
  delays : List Nat
  finalQueue : List FailedEntry
  deriving Repr, DecidableEq

/-- The retry loop `while (failedQueue.length > 0 && retryRound <= maxRetries)`
with its `200 * retryRound` backoff delays; `fuel` counts the rounds still
allowed (`maxRetries - retryRound + 1`). -/
def retryLoop (try1 : Nat → String → Bool) : Nat → Nat → List FailedEntry → SpritesResult
  | _, _, [] => ⟨[], [], [], [], []⟩
  | 0, _, q => ⟨[], [], [], [], q⟩
  | fuel + 1, rnd, q =>
    let out := processRetryRound try1 rnd q
    let rest := retryLoop try1 fuel (rnd + 1) out.requeued
    ⟨out.attempted ++ rest.attempted, out.sprites ++ rest.sprites,
      out.abandoned ++ rest.abandoned, 200 * rnd :: rest.delays, rest.finalQueue⟩

/-- One full createSprites call of the V2 / part_001 iteration: early return on
an empty record list, the initial batched pass over the grouped regions, then
up to maxRetries retry rounds over the failedQueue. -/
def createSpritesRun (engine : String → Nat → AddResult) (earthAvailable : Bool)
    (centers : List DataCenterRecord) : SpritesResult :=
  if centers.length = 0 then ⟨[], [], [], [], []⟩
  else
    let regions := regionKeys centers
    let try1 := fun rnd region => tryAddRegion engine earthAvailable centers rnd region
    let ini := initialBatchedPass try1 regions
    let rest := retryLoop try1 maxRetries 1 ini.2.2
    ⟨ini.1 ++ rest.attempted, ini.2.1 ++ rest.sprites, rest.abandoned,
      rest.delays, rest.finalQueue⟩

/-! ## Characterization of the passes -/

lemma initialBatchedPass_attempted (try1 : Nat → String → Bool) (rs : List String) :
    (initialBatchedPass try1 rs).1 = rs := by
  induction rs with
  | nil => rfl
  | cons r rest ih =>
    simp only [initialBatchedPass]
    split <;> simp [ih]

lemma initialBatchedPass_sprites (try1 : Nat → String → Bool) (rs : List String) :
    (initialBatchedPass try1 rs).2.1 = rs.filter (fun x => try1 0 x) := by
  induction rs with
  | nil => rfl
  | cons r rest ih =>
    simp only [initialBatchedPass, List.filter_cons]
    cases h : try1 0 r <;> simp [h, ih]

lemma initialBatchedPass_queue (try1 : Nat → String → Bool) (rs : List String) :
    (initialBatchedPass try1 rs).2.2 =
      (rs.filter (fun x => !try1 0 x)).map (fun x => (⟨x, 1⟩ : FailedEntry)) := by
  induction rs with
  | nil => rfl
  | cons r rest ih =>
    simp only [initialBatchedPass, List.filter_cons]
    cases h : try1 0 r <;> simp [h, ih]

lemma processRetryRound_attempted (try1 : Nat → String → Bool) (rnd : Nat)
    (q : List FailedEntry) :
    (processRetryRound try1 rnd q).attempted = q.map (fun e => e.region) := by
  induction q with
  | nil => rfl
  | cons e rest ih =>
    simp only [processRetryRound]
    split
    · simp [ih]
    · split <;> simp [ih]

lemma processRetryRound_sprites (try1 : Nat → String → Bool) (rnd : Nat)
    (q : List FailedEntry) :
    (processRetryRound try1 rnd q).sprites =
      (q.filter (fun e => try1 rnd e.region)).map (fun e => e.region) := by
  induction q with
  | nil => rfl
  | cons e rest ih =>
    simp only [processRetryRound, List.filter_cons]
    cases h : try1 rnd e.region
    · simp only [h, Bool.false_eq_true, if_false, cond_false]
      split <;> simp [ih]
    · simp [h, ih]

lemma processRetryRound_requeued (try1 : Nat → String → Bool) (rnd : Nat)
    (q : List FailedEntry) :
    (processRetryRound try1 rnd q).requeued =
      (q.filter (fun e => !try1 rnd e.region && decide (e.attempts + 1 ≤ maxRetries))).map
        (fun e => (⟨e.region, e.attempts + 1⟩ : FailedEntry)) := by
  induction q with
  | nil => rfl
  | cons e rest ih =>
    simp only [processRetryRound, List.filter_cons]
    cases h : try1 rnd e.region
    · by_cases h2 : e.attempts + 1 ≤ maxRetries
      · simp [h, h2, ih]
      · simp [h, h2, ih]
    · simp [h, ih]

lemma processRetryRound_abandoned (try1 : Nat → String → Bool) (rnd : Nat)
    (q : List FailedEntry) :
    (processRetryRound try1 rnd q).abandoned =
      (q.filter (fun e => !try1 rnd e.region && !decide (e.attempts + 1 ≤ maxRetries))).map
        (fun e => e.region) := by
  induction q with
  | nil => rfl
  | cons e rest ih =>
    simp only [processRetryRound, List.filter_cons]
    cases h : try1 rnd e.region
    · by_cases h2 : e.attempts + 1 ≤ maxRetries
      · simp [h, h2, ih]
      · simp [h, h2, ih]
    · simp [h, ih]

lemma retryLoop_fuel_zero (try1 : Nat → String → Bool) (rnd : Nat) (q : List FailedEntry) :
    retryLoop try1 0 rnd q = ⟨[], [], [], [], q⟩ := by
  cases q <;> rfl

lemma retryLoop_cons (try1 : Nat → String → Bool) (fuel rnd : Nat) (q : List FailedEntry)
    (hq : q ≠ []) :
    retryLoop try1 (fuel + 1) rnd q =
      ⟨(processRetryRound try1 rnd q).attempted ++
          (retryLoop try1 fuel (rnd + 1) (processRetryRound try1 rnd q).requeued).attempted,
        (processRetryRound try1 rnd q).sprites ++
          (retryLoop try1 fuel (rnd + 1) (processRetryRound try1 rnd q).requeued).sprites,
        (processRetryRound try1 rnd q).abandoned ++
          (retryLoop try1 fuel (rnd + 1) (processRetryRound try1 rnd q).requeued).abandoned,
        200 * rnd ::
          (retryLoop try1 fuel (rnd + 1) (processRetryRound try1 rnd q).requeued).delays,
        (retryLoop try1 fuel (rnd + 1) (processRetryRound try1 rnd q).requeued).finalQueue⟩ := by
  cases q with
  | nil => exact absurd rfl hq
  | cons e t => rfl

/-! ## Counting helpers for a fixed target region -/

/-- The entries of a queue whose region is `r`. -/
def entriesFor (r : String) (q : List FailedEntry) : List FailedEntry :=
  q.filter (fun e => e.region == r)

lemma entriesFor_nil (r : String) : entriesFor r [] = [] := rfl

lemma count_map_region (r : String) (q : List FailedEntry) :
    ((q.map (fun e => e.region)).count r) = (entriesFor r q).length := by
  induction q with
  | nil => rfl
  | cons e rest ih =>
    simp only [List.map_cons, List.count_cons, entriesFor, List.filter_cons]
    cases h : (e.region == r) <;> simp [h, ih, entriesFor]

lemma entriesFor_filter (r : String) (p : FailedEntry → Bool) (q : List FailedEntry) :
    entriesFor r (q.filter p) = (entriesFor r q).filter p := by
  unfold entriesFor
  exact List.filter_comm _ _ _

lemma count_filter_map_region (r : String) (p : FailedEntry → Bool) (q : List FailedEntry) :
    (((q.filter p).map (fun e => e.region)).count r) = ((entriesFor r q).filter p).length := by
  rw [count_map_region, entriesFor_filter]

lemma entriesFor_filter_map_bump (r : String) (p : FailedEntry → Bool) (q : List FailedEntry) :
    entriesFor r ((q.filter p).map (fun e => (⟨e.region, e.attempts + 1⟩ : FailedEntry))) =
      ((entriesFor r q).filter p).map
        (fun e => (⟨e.region, e.attempts + 1⟩ : FailedEntry)) := by
  induction q with
  | nil => rfl
  | cons e rest ih =>
    simp only [entriesFor, List.filter_cons] at ih ⊢
    cases hp : p e
    · cases hr : (e.region == r) <;> simp [hp, hr, ih]
    · cases hr : (e.region == r) <;> simp [hp, hr, ih]

lemma entriesFor_map_one_of_not_mem (r : String) (p : String → Bool) (l : List String)
    (h : r ∉ l) :
    entriesFor r ((l.filter p).map (fun x => (⟨x, 1⟩ : FailedEntry))) = [] := by
  induction l with
  | nil => rfl
  | cons x rest ih =>
    have hx : x ≠ r := fun hxr => h (hxr ▸ List.mem_cons_self x rest)
    have hrest : r ∉ rest := fun hr => h (List.mem_cons_of_mem x hr)
    have hbeq : (x == r) = false := by simp [hx]
    cases hp : p x
    · simpa [List.filter_cons, hp] using ih hrest
    · simpa [List.filter_cons, hp, entriesFor, hbeq] using ih hrest

lemma entriesFor_map_one_of_false (r : String) (p : String → Bool) (l : List String)
    (h : p r = false) :
    entriesFor r ((l.filter p).map (fun x => (⟨x, 1⟩ : FailedEntry))) = [] := by
  induction l with
  | nil => rfl
  | cons x rest ih =>
    by_cases hx : x = r
    · subst hx
      simpa [List.filter_cons, h] using ih
    · have hbeq : (x == r) = false := by simp [hx]
      cases hp : p x
      · simpa [List.filter_cons, hp] using ih
      · simpa [List.filter_cons, hp, entriesFor, hbeq] using ih

lemma entriesFor_map_one_single (r : String) (p : String → Bool) (l : List String)
    (hnd : l.Nodup) (hmem : r ∈ l) (hp : p r = true) :
    entriesFor r ((l.filter p).map (fun x => (⟨x, 1⟩ : FailedEntry))) =
      [(⟨r, 1⟩ : FailedEntry)] := by
  induction l with
  | nil => exact absurd hmem (List.not_mem_nil r)
  | cons x rest ih =>
    have hnd2 := (List.nodup_cons.mp hnd)
    rcases List.mem_cons.mp hmem with hx | hx
    · subst hx
      simpa [List.filter_cons, hp, entriesFor] using
        entriesFor_map_one_of_not_mem r p rest hnd2.1
    · have hxr : x ≠ r := fun hxr => hnd2.1 (hxr ▸ hx)
      have hbeq : (x == r) = false := by simp [hxr]
      cases hpx : p x
      · simpa [List.filter_cons, hpx] using ih hnd2.2 hx
      · simpa [List.filter_cons, hpx, entriesFor, hbeq] using ih hnd2.2 hx

lemma queue_ne_nil_of_entriesFor (r : String) (q : List FailedEntry)
    (h : entriesFor r q ≠ []) : q ≠ [] := by
  intro hq
  subst hq
  exact h rfl

lemma count_filter_of_false {p : String → Bool} {a : String} (l : List String)
    (h : p a = false) : (l.filter p).count a = 0 := by
  rw [List.count_eq_zero]
  intro hmem
  have := (List.mem_filter.mp hmem).2
  rw [h] at this
  exact absurd this (by simp)

lemma count_filter_of_true {p : String → Bool} {a : String} (l : List String)
    (h : p a = true) : (l.filter p).count a = l.count a := by
  induction l with
  | nil => rfl
  | cons x rest ih =>
    simp only [List.filter_cons]
    by_cases hx : x = a
    · subst hx
      rw [h]
      simp [List.count_cons, ih]
    · have hbeq : (x == a) = false := by simp [hx]
      cases hp : p x <;> simp [List.count_cons, hbeq, ih]

/-- Effect of one retry round on a region r that fails this round and has
exactly one queue entry with `attempts = a`. -/
lemma processRetryRound_entry (try1 : Nat → String → Bool) (rnd a : Nat)
    (r : String) (q : List FailedEntry)
    (hq : entriesFor r q = [⟨r, a⟩]) (hfail : try1 rnd r = false) :
    (processRetryRound try1 rnd q).attempted.count r = 1 ∧
    (processRetryRound try1 rnd q).sprites.count r = 0 ∧
    entriesFor r (processRetryRound try1 rnd q).requeued =
      (if a + 1 ≤ maxRetries then [(⟨r, a + 1⟩ : FailedEntry)] else []) ∧
    (processRetryRound try1 rnd q).abandoned.count r =
      (if a + 1 ≤ maxRetries then 0 else 1) := by
  refine ⟨?_, ?_, ?_, ?_⟩
  · rw [processRetryRound_attempted, count_map_region, hq]
    rfl
  · rw [processRetryRound_sprites, count_filter_map_region, hq]
    simp [hfail]
  · rw [processRetryRound_requeued, entriesFor_filter_map_bump, hq]
    by_cases h2 : a + 1 ≤ maxRetries <;> simp [hfail, h2]
  · rw [processRetryRound_abandoned, count_filter_map_region, hq]
    by_cases h2 : a + 1 ≤ maxRetries <;> simp [hfail, h2]

/-- A region with no entry in the queue is never touched by the retry loop. -/
lemma retryLoop_count_zero (try1 : Nat → String → Bool) (r : String) :
    ∀ (fuel rnd : Nat) (q : List FailedEntry), entriesFor r q = [] →
      (retryLoop try1 fuel rnd q).attempted.count r = 0 ∧
      (retryLoop try1 fuel rnd q).sprites.count r = 0 ∧
      (retryLoop try1 fuel rnd q).abandoned.count r = 0 ∧
      ∀ e ∈ (retryLoop try1 fuel rnd q).finalQueue, e.region ≠ r := by
  intro fuel
  induction fuel with
  | zero =>
    intro rnd q hq
    rw [retryLoop_fuel_zero]
    refine ⟨rfl, rfl, rfl, ?_⟩
    intro e he heq
    have hmem : e ∈ entriesFor r q := by
      simp [entriesFor, List.mem_filter, he, heq]
    rw [hq] at hmem
    exact absurd hmem (List.not_mem_nil e)
  | succ fuel ih =>
    intro rnd q hq
    cases q with
    | nil => exact ⟨rfl, rfl, rfl, by intro e he; simp [retryLoop] at he⟩
    | cons e t =>
      rw [retryLoop_cons try1 fuel rnd (e :: t) (by simp)]
      have hreq : entriesFor r (processRetryRound try1 rnd (e :: t)).requeued = [] := by
        rw [processRetryRound_requeued, entriesFor_filter_map_bump, hq]
        rfl
      obtain ⟨ih1, ih2, ih3, ih4⟩ := ih (rnd + 1) _ hreq
      refine ⟨?_, ?_, ?_, ih4⟩
      · rw [List.count_append, processRetryRound_attempted, count_map_region, hq, ih1]
        rfl
      · rw [List.count_append, processRetryRound_sprites, count_filter_map_region, hq, ih2]
        rfl
      · rw [List.count_append, processRetryRound_abandoned, count_filter_map_region, hq, ih3]
        rfl

lemma delays_range_succ (rnd n : Nat) :
    (List.range (n + 1)).map (fun i => 200 * (rnd + i)) =
      200 * rnd :: (List.range n).map (fun i => 200 * (rnd + 1 + i)) := by
  rw [List.range_succ_eq_map]
  simp only [List.map_cons, List.map_map, Nat.add_zero]
  congr 1
  refine List.map_congr_left ?_
  intro i _
  simp only [Function.comp_apply]
  omega

/-- Full account of the retry loop for a region that fails every attempt and
has exactly one queue entry whose attempts equal the incoming round number
(the invariant maintained by the loop). -/
lemma retryLoop_always_fails (try1 : Nat → String → Bool) (r : String)
    (hf : ∀ n, try1 n r = false) :
    ∀ (fuel rnd : Nat) (q : List FailedEntry), 1 ≤ fuel →
      fuel + rnd = maxRetries + 1 →
      entriesFor r q = [⟨r, rnd⟩] →
      (retryLoop try1 fuel rnd q).attempted.count r = fuel ∧
      (retryLoop try1 fuel rnd q).sprites.count r = 0 ∧
      (retryLoop try1 fuel rnd q).abandoned.count r = 1 ∧
      (retryLoop try1 fuel rnd q).delays = (List.range fuel).map (fun i => 200 * (rnd + i)) ∧
      ∀ e ∈ (retryLoop try1 fuel rnd q).finalQueue, e.region ≠ r := by
  intro fuel
  induction fuel with
  | zero => intro rnd q h1; omega
  | succ fuel ih =>
    intro rnd q _ hsum hq
    have hqne : q ≠ [] := queue_ne_nil_of_entriesFor r q (by rw [hq]; simp)
    rw [retryLoop_cons try1 fuel rnd q hqne]
    obtain ⟨ha, hs, hr, hb⟩ := processRetryRound_entry try1 rnd rnd r q hq (hf rnd)
    cases fuel with
    | zero =>
      have hrnd : rnd = maxRetries := by omega
      have hcond : ¬(rnd + 1 ≤ maxRetries) := by omega
      rw [if_neg hcond] at hr hb
      obtain ⟨hz1, hz2, hz3, hz4⟩ := retryLoop_count_zero try1 r 0 (rnd + 1) _ hr
      refine ⟨?_, ?_, ?_, ?_, hz4⟩
      · rw [List.count_append, ha, hz1]
      · rw [List.count_append, hs, hz2]
      · rw [List.count_append, hb, hz3]
      · rw [retryLoop_fuel_zero]
        simp [List.range_succ]
    | succ fuel' =>
      have hcond : rnd + 1 ≤ maxRetries := by
        simp only [maxRetries] at hsum ⊢
        omega
      rw [if_pos hcond] at hr hb
      have hfe : 1 ≤ fuel' + 1 := by omega
      have hsum2 : fuel' + 1 + (rnd + 1) = maxRetries + 1 := by omega
      obtain ⟨ih1, ih2, ih3, ih4, ih5⟩ := ih (rnd + 1) _ hfe hsum2 hr
      refine ⟨?_, ?_, ?_, ?_, ih5⟩
      · rw [List.count_append, ha, ih1]
        omega
      · rw [List.count_append, hs, ih2]
      · rw [List.count_append, hb, ih3]
      · rw [ih4]
        conv_rhs => rw [delays_range_succ]

/-- A region of the grouped map whose creation attempt fails every time is
attempted exactly 1 + maxRetries times, obtains no sprite, is logged as given
up exactly once, forces exactly the three backoff delays 200, 400, 600 ms,
and is absent from the queue left after the loop. -/
lemma createSpritesRun_always_fails (engine : String → Nat → AddResult) (avail : Bool)
    (centers : List DataCenterRecord) (r : String)
    (hmem : r ∈ regionKeys centers)
    (hfail : ∀ n, tryAddRegion engine avail centers n r = false) :
    (createSpritesRun engine avail centers).attempted.count r = 1 + maxRetries ∧
    (createSpritesRun engine avail centers).sprites.count r = 0 ∧
    (createSpritesRun engine avail centers).abandoned.count r = 1 ∧
    (createSpritesRun engine avail centers).delays = [200, 400, 600] ∧
    ∀ e ∈ (createSpritesRun engine avail centers).finalQueue, e.region ≠ r := by
  have hne : ¬(centers.length = 0) := by
    intro h
    rw [List.length_eq_zero] at h
    subst h
    simp [regionKeys] at hmem
  unfold createSpritesRun
  rw [if_neg hne]
  dsimp only
  have hnd : (regionKeys centers).Nodup := List.nodup_dedup _
  have hq0 : entriesFor r
      (initialBatchedPass
        (fun rnd region => tryAddRegion engine avail centers rnd region)
        (regionKeys centers)).2.2 = [⟨r, 1⟩] := by
    rw [initialBatchedPass_queue]
    exact entriesFor_map_one_single r _ (regionKeys centers) hnd hmem (by simp [hfail 0])
  obtain ⟨hL1, hL2, hL3, hL4, hL5⟩ :=
    retryLoop_always_fails
      (fun rnd region => tryAddRegion engine avail centers rnd region) r
      (fun n => hfail n) maxRetries 1 _ (by norm_num [maxRetries]) rfl hq0
  refine ⟨?_, ?_, ?_, ?_, hL5⟩
  · rw [List.count_append, initialBatchedPass_attempted,
      List.count_eq_one_of_mem hnd hmem, hL1]
  · rw [List.count_append, initialBatchedPass_sprites,
      count_filter_of_false _ (hfail 0), hL2]
  · exact hL3
  · rw [hL4]
    simp [maxRetries, List.range_succ]

/-! ## Claim C1 -/

/-- Claim C1: a region whose marker creation always fails is attempted exactly
1 + maxRetries = 4 times in total - one initial attempt plus the maxRetries = 3
retry rounds with backoff 200 ms * roundNumber (delays 200, 400, 600) - it
obtains no sprite, it is logged as abandoned exactly once, and it never
appears in the queue remaining after the loop, hence is never retried
again. -/
theorem createSprites_retry_bound (engine : String → Nat → AddResult) (avail : Bool)
    (centers : List DataCenterRecord) (r : String)
    (hmem : r ∈ regionKeys centers)
    (hfail : ∀ n, tryAddRegion engine avail centers n r = false) :
    (createSpritesRun engine avail centers).attempted.count r = 1 + maxRetries ∧
    (createSpritesRun engine avail centers).sprites.count r = 0 ∧
    (createSpritesRun engine avail centers).abandoned.count r = 1 ∧
    (createSpritesRun engine avail centers).delays = [200, 400, 600] ∧
    ∀ e ∈ (createSpritesRun engine avail centers).finalQueue, e.region ≠ r :=
  createSpritesRun_always_fails engine avail centers r hmem hfail

def dcGood : DataCenterRecord :=
  ⟨"dc1", "DC One", "Owner One", "R", .num 10, .num 20, .num 5⟩

def engineAlwaysThrows : String → Nat → AddResult := fun _ _ => .thrown

/-- Witness for C1: one region whose factory always throws is attempted 4
times, abandoned once, with backoffs 200, 400, 600 ms. -/
theorem createSprites_retry_bound_witness :
    (createSpritesRun engineAlwaysThrows true [dcGood]).attempted.count "R" = 1 + maxRetries ∧
    (createSpritesRun engineAlwaysThrows true [dcGood]).abandoned.count "R" = 1 ∧
    (createSpritesRun engineAlwaysThrows true [dcGood]).delays = [200, 400, 600] := by
  obtain ⟨h1, h2, h3, h4, h5⟩ :=
    createSprites_retry_bound engineAlwaysThrows true [dcGood] "R" (by decide) (fun n => rfl)
  exact ⟨h1, h3, h4⟩

/-! ## Claim C7 -/

def dcBadLat : DataCenterRecord :=
  ⟨"dc2", "DC Two", "Owner Two", "B", .num 200, .num 0, .num 4⟩

def engineAlwaysCreates : String → Nat → AddResult := fun _ _ => .created

/-- Counterexample for C7: the validation checks only finiteness, not the
ranges [-90, 90] and [-180, 180].  A record with the finite but out-of-range
latitude 200 passes validation and produces one marker, not zero. -/
theorem invalid_latlng_counterexample :
    ¬((-90 : ℚ) ≤ 200 ∧ (200 : ℚ) ≤ 90) ∧
    dcBadLat.latitude = .num 200 ∧
    (createSpritesRun engineAlwaysCreates true [dcBadLat]).sprites.count "B" = 1 := by
  refine ⟨by norm_num, rfl, ?_⟩
  rfl

lemma tryAddRegion_nonfinite (engine : String → Nat → AddResult) (avail : Bool)
    (centers : List DataCenterRecord) (r : String) (f : DataCenterRecord)
    (hf : (regionGroup centers r).head? = some f)
    (hbad : isFiniteNumber f.latitude = false ∨ isFiniteNumber f.longitude = false) :
    ∀ n, tryAddRegion engine avail centers n r = false := by
  intro n
  rcases hbad with h | h <;> simp [tryAddRegion, spriteChecks, hf, h]

/-- Claim C7 (amended): a region group whose first record has a non-finite
(NaN, Infinity, or non-numeric) latitude or longitude obtains zero markers and
is skipped without throwing, and the processing of all other regions continues
unaffected: every region whose creation succeeds on its initial attempt still
obtains exactly one marker.  Finite out-of-range coordinates, however, are not
filtered (see the counterexample): the code checks only finiteness, not the
ranges stated in the original claim. -/
theorem nonfinite_latlng_skipped (engine : String → Nat → AddResult) (avail : Bool)
    (centers : List DataCenterRecord) (r : String) (f : DataCenterRecord)
    (hf : (regionGroup centers r).head? = some f)
    (hbad : isFiniteNumber f.latitude = false ∨ isFiniteNumber f.longitude = false) :
    (createSpritesRun engine avail centers).sprites.count r = 0 ∧
    ∀ r2, r2 ∈ regionKeys centers → tryAddRegion engine avail centers 0 r2 = true →
      (createSpritesRun engine avail centers).sprites.count r2 = 1 := by
  constructor
  · have hmemf : f ∈ regionGroup centers r :=
      List.mem_of_mem_head? (Option.mem_def.mpr hf)
    have hreg : f.region = r := by
      have := (List.mem_filter.mp hmemf).2
      exact eq_of_beq this
    have hmem : r ∈ regionKeys centers := by
      unfold regionKeys
      rw [List.mem_dedup]
      exact hreg ▸ List.mem_map_of_mem (fun dc => dc.region) (List.mem_filter.mp hmemf).1
    exact (createSpritesRun_always_fails engine avail centers r hmem
      (tryAddRegion_nonfinite engine avail centers r f hf hbad)).2.1
  · intro r2 hmem2 hok
    have hne : ¬(centers.length = 0) := by
      intro h
      rw [List.length_eq_zero] at h
      subst h
      simp [regionKeys] at hmem2
    unfold createSpritesRun
    rw [if_neg hne]
    dsimp only
    have hnd : (regionKeys centers).Nodup := List.nodup_dedup _
    have hq0 : entriesFor r2
        (initialBatchedPass
          (fun rnd region => tryAddRegion engine avail centers rnd region)
          (regionKeys centers)).2.2 = [] := by
      rw [initialBatchedPass_queue]
      exact entriesFor_map_one_of_false r2 _ (regionKeys centers) (by simp [hok])
    obtain ⟨hz1, hz2, hz3, hz4⟩ :=
      retryLoop_count_zero
        (fun rnd region => tryAddRegion engine avail centers rnd region) r2
        maxRetries 1 _ hq0
    rw [List.count_append, initialBatchedPass_sprites,
      count_filter_of_true _ hok, List.count_eq_one_of_mem hnd hmem2, hz2]

def dcNanLat : DataCenterRecord :=
  ⟨"dc3", "DC Three", "Owner Three", "N", .nanVal, .num 0, .num 2⟩

/-- Witness for the amended C7: with one NaN-latitude record and one valid
record, the NaN region obtains zero markers and the valid region exactly
one. -/
theorem nonfinite_latlng_skipped_witness :
    (createSpritesRun engineAlwaysCreates true [dcNanLat, dcGood]).sprites.count "N" = 0 ∧
    (createSpritesRun engineAlwaysCreates true [dcNanLat, dcGood]).sprites.count "R" = 1 := by
  obtain ⟨h1, h2⟩ :=
    nonfinite_latlng_skipped engineAlwaysCreates true [dcNanLat, dcGood] "N" dcNanLat
      rfl (Or.inl rfl)
  exact ⟨h1, h2 "R" (by decide) rfl⟩
